import Mathlib

set_option autoImplicit false

/-
Shallow embedding of altair_widgets/widget.py (the Interact class and its
helper functions), together with theorems checking the specification
claims against it.  Python dictionaries are modelled as ordered
association lists with string keys (Python dicts preserve insertion
order and have unique keys); removing a key is modelled by filtering out
every binding of that key, which agrees with dict.pop on dicts whose
keys are unique.  Python None is the value Val.null.
-/

namespace AltairWidgets

/-- A Python value as it appears in the settings dictionaries: None, a
string, or a boolean. -/
inductive Val where
  | null : Val
  | str (s : String) : Val
  | bool (b : Bool) : Val
deriving DecidableEq, Repr

/-- A Python dict with string keys, as an insertion-ordered association
list. -/
abbrev PyDict (α : Type) : Type := List (String × α)

namespace PyDict

/-- Key lookup, d[k] as an Option. -/
def lookup {α : Type} (d : PyDict α) (k : String) : Option α :=
  match d with
  | [] => none
  | (k1, v) :: rest => if k1 = k then some v else lookup rest k

/-- Assignment d[k] = v: replace the value in place when the key is
present (Python dicts keep the original position), append otherwise. -/
def set {α : Type} (d : PyDict α) (k : String) (v : α) : PyDict α :=
  match d with
  | [] => [(k, v)]
  | (k1, v1) :: rest => if k1 = k then (k, v) :: rest else (k1, v1) :: set rest k v

/-- d.pop(k, None): remove the key when present, no-op otherwise.
Recursing on both sides removes every binding of k, which on dicts
(whose keys are unique) is exactly the removal of the one binding. -/
def popD {α : Type} (d : PyDict α) (k : String) : PyDict α :=
  match d with
  | [] => []
  | p :: rest => if p.1 = k then popD rest k else p :: popD rest k

/-- d.pop(k) with no default: KeyError (none) when the key is absent. -/
def pop {α : Type} (d : PyDict α) (k : String) : Option (PyDict α) :=
  match lookup d k with
  | none => none
  | some _ => some (popD d k)

theorem lookup_set_self {α : Type} (d : PyDict α) (k : String) (v : α) :
    lookup (set d k v) k = some v := by
  induction d with
  | nil => simp [set, lookup]
  | cons p rest ih =>
      by_cases h : p.1 = k
      · simp [set, h, lookup]
      · simp [set, h, lookup, ih]

theorem lookup_set_ne {α : Type} (d : PyDict α) (k k2 : String) (v : α)
    (h : k2 ≠ k) : lookup (set d k v) k2 = lookup d k2 := by
  have h1 : ¬ k = k2 := fun hh => h hh.symm
  induction d with
  | nil => simp [set, lookup, h1]
  | cons p rest ih =>
      by_cases h2 : p.1 = k
      · subst h2
        simp [set, lookup, h1]
      · by_cases h3 : p.1 = k2 <;> simp [set, h2, lookup, h3, ih, h1, h]

theorem lookup_popD_self {α : Type} (d : PyDict α) (k : String) :
    lookup (popD d k) k = none := by
  induction d with
  | nil => simp [popD, lookup]
  | cons p rest ih =>
      by_cases h : p.1 = k
      · simpa [popD, h, lookup] using ih
      · simpa [popD, h, lookup] using ih

theorem lookup_popD_ne {α : Type} (d : PyDict α) (k k2 : String)
    (h : k2 ≠ k) : lookup (popD d k) k2 = lookup d k2 := by
  induction d with
  | nil => simp [popD, lookup]
  | cons p rest ih =>
      by_cases h1 : p.1 = k
      · have h2 : ¬ p.1 = k2 := fun hh => h (hh ▸ h1)
        simpa [popD, h1, lookup, h2, Ne.symm h] using ih
      · by_cases h2 : p.1 = k2 <;> simp [popD, h1, lookup, h2, ih, h]

end PyDict

/-- Does the second character list start the first one? -/
def charsLeadWith : List Char → List Char → Bool
  | [], _ => true
  | _ :: _, [] => false
  | p :: ps, c :: cs => p == c && charsLeadWith ps cs

/-- Does pat occur contiguously inside s? -/
def charsContain : List Char → List Char → Bool
  | [], pat => charsLeadWith pat []
  | c :: rest, pat => charsLeadWith pat (c :: rest) || charsContain rest pat

/-- A string-containment test, the Python expression pat in s. -/
def strContains (s pat : String) : Bool :=
  charsContain s.data pat.data

/-- The check "auto in value" from Interact.update.  The value of a
type dropdown is always a string; on a non-string Python would raise,
a case no reachable event produces. -/
def valSignalsAuto : Val → Bool
  | Val.str s => strContains s "auto"
  | _ => false

/-- A control-change event as Interact.update reads it: the owner tags
row and title, the owner value, and the new/old values from the event
dict.  The mark row uses the sentinel row = -1. -/
structure Event where
  row : Int
  title : String
  value : Val
  new : Val
  old : Val
deriving DecidableEq, Repr

/-- The settings tree: a mark dict plus one dict per encoding row. -/
structure Settings where
  mark : PyDict Val
  encodings : List (PyDict Val)
deriving DecidableEq, Repr

/-- The fixed priority-ordered encoding catalog, _get_encodings. -/
def _get_encodings : List String :=
  ["x", "y", "color", "text", "row", "column", "opacity", "shape", "size"]

/-- The initial settings built in Interact.__init__: a default mark and
one entry per requested dimension holding only its encoding name. -/
def initSettings (ndims : Nat) : Settings :=
  { mark := [("mark", Val.str "mark_point")],
    encodings := (_get_encodings.take ndims).map fun e => [("encoding", Val.str e)] }

/-- The mutation Interact.update performs on one encoding entry.  The
branch structure mirrors the source exactly: the type/auto-detect test
is a plain if (not chained by elif to the title == text test below it),
so after its pop control still falls into the text/else dispatch.  The
none result is the KeyError raised by the no-default pop. -/
def entryUpdate (ev : Event) (entry0 : PyDict Val) : Option (PyDict Val) :=
  let entry1 :=
    if ev.title = "type" ∧ valSignalsAuto ev.value = true then
      PyDict.popD entry0 "type"
    else entry0
  if ev.title = "text" then
    if ev.value = Val.str "" then some (PyDict.popD entry1 "text")
    else some (PyDict.set entry1 "column" ev.value)
  else
    if ev.new = Val.null then PyDict.pop entry1 ev.title
    else some (PyDict.set entry1 ev.title ev.new)

/-- Interact.update, the settings synchronizer.  The mark sentinel row
is -1; any other row indexes the encodings list, Python style (a
further negative index counts from the end, out of range raises
IndexError). -/
def update (s : Settings) (ev : Event) : Except String Settings :=
  if ev.row = -1 then
    Except.ok { s with mark := PyDict.set s.mark ev.title ev.new }
  else
    let j : Int := if ev.row < 0 then (s.encodings.length : Int) + ev.row else ev.row
    if j < 0 then Except.error "IndexError"
    else
      match s.encodings.get? j.toNat with
      | none => Except.error "IndexError"
      | some entry0 =>
        match entryUpdate ev entry0 with
        | none => Except.error "KeyError"
        | some entry2 =>
            Except.ok { s with encodings := s.encodings.set j.toNat entry2 }

/-- Characterization of update on a valid nonnegative encoding row. -/
theorem update_at_row (s : Settings) (i : Nat) (ev : Event) (entry : PyDict Val)
    (hrow : ev.row = (i : Int)) (hget : s.encodings.get? i = some entry) :
    update s ev =
      match entryUpdate ev entry with
      | none => Except.error "KeyError"
      | some entry2 => Except.ok { s with encodings := s.encodings.set i entry2 } := by
  have h1 : ¬ ((i : Int) = -1) := by omega
  have h2 : ¬ ((i : Int) < 0) := by omega
  simp only [update, hrow, h1, h2, if_false, Int.toNat_natCast, hget]

/-- C1: the claim says a type/auto-detect event leaves the entry with no
type key.  On the code the pop of the type key (line 127) is immediately
undone: the auto-detect test is not elif-chained to the text test, so the
generic assignment (line 137) re-stores the value.  At the failing input
below, the entry afterwards maps type to the string auto detect. -/
theorem c1_auto_detect_leaves_type_key :
    update (initSettings 1)
        { row := 0, title := "type", value := Val.str "auto detect",
          new := Val.str "auto detect", old := Val.str "quantitative" }
      = Except.ok { mark := [("mark", Val.str "mark_point")],
                    encodings := [[("encoding", Val.str "x"), ("type", Val.str "auto detect")]] } ∧
    PyDict.lookup [("encoding", Val.str "x"), ("type", Val.str "auto detect")] "type"
      = some (Val.str "auto detect") := by
  constructor <;> rfl

/-- C2 counterexample: the claim says an empty-string text event leaves
the entry with neither a text nor a column key.  On the code only the
text key is popped; at the input below the column binding W survives
(the settings are in fact completely unchanged). -/
theorem c2_empty_text_keeps_column :
    update { mark := [("mark", Val.str "mark_point")],
             encodings := [[("encoding", Val.str "x"), ("column", Val.str "W")]] }
        { row := 0, title := "text", value := Val.str "",
          new := Val.str "", old := Val.str "W" }
      = Except.ok { mark := [("mark", Val.str "mark_point")],
                    encodings := [[("encoding", Val.str "x"), ("column", Val.str "W")]] } ∧
    PyDict.lookup [("encoding", Val.str "x"), ("column", Val.str "W")] "column"
      = some (Val.str "W") := by
  constructor <;> rfl

/-- C2 amended: a text event with empty value removes only the text key
of the row entry (a no-op when absent) and leaves every other key, the
column key included, unchanged; a text event with a non-empty string t
sets the column key of that entry to t. -/
theorem c2_text_event_semantics (s : Settings) (i : Nat) (entry : PyDict Val) (ev : Event)
    (hrow : ev.row = (i : Int)) (htitle : ev.title = "text")
    (hget : s.encodings.get? i = some entry) :
    (ev.value = Val.str "" →
      update s ev = Except.ok { s with encodings := s.encodings.set i (PyDict.popD entry "text") } ∧
      PyDict.lookup (PyDict.popD entry "text") "text" = none ∧
      ∀ k, k ≠ "text" → PyDict.lookup (PyDict.popD entry "text") k = PyDict.lookup entry k) ∧
    (∀ t, ev.value = Val.str t → ¬ t = "" →
      update s ev = Except.ok
          { s with encodings := s.encodings.set i (PyDict.set entry "column" (Val.str t)) } ∧
      PyDict.lookup (PyDict.set entry "column" (Val.str t)) "column" = some (Val.str t)) := by
  have hupd := update_at_row s i ev entry hrow hget
  have hnt : ¬ (ev.title = "type" ∧ valSignalsAuto ev.value = true) := by
    rintro ⟨h, _⟩
    rw [htitle] at h
    exact absurd h (by decide)
  constructor
  · intro hv
    have hstep : entryUpdate ev entry = some (PyDict.popD entry "text") := by
      simp [entryUpdate, hnt, htitle, hv]
    rw [hupd, hstep]
    exact ⟨rfl, PyDict.lookup_popD_self entry "text",
           fun k hk => PyDict.lookup_popD_ne entry "text" k hk⟩
  · intro t hv hne
    have hv2 : ¬ (ev.value = Val.str "") := by
      rw [hv]
      intro hh
      injection hh with hh2
      exact hne hh2
    have hstep : entryUpdate ev entry = some (PyDict.set entry "column" ev.value) := by
      simp [entryUpdate, hnt, htitle, hv2]
    rw [hupd, hstep, hv]
    exact ⟨rfl, PyDict.lookup_set_self entry "column" (Val.str t)⟩

/-- C2 amended, witness: the non-empty case at a concrete input sets
column = Sepal.Length. -/
theorem c2_text_event_semantics_witness :
    update { mark := [("mark", Val.str "mark_point")],
             encodings := [[("encoding", Val.str "x"), ("column", Val.str "W")]] }
        { row := 0, title := "text", value := Val.str "Sepal.Length",
          new := Val.str "Sepal.Length", old := Val.null }
      = Except.ok { mark := [("mark", Val.str "mark_point")],
                    encodings := [[("encoding", Val.str "x"), ("column", Val.str "Sepal.Length")]] } ∧
    PyDict.lookup (PyDict.set [("encoding", Val.str "x"), ("column", Val.str "W")]
        "column" (Val.str "Sepal.Length")) "column" = some (Val.str "Sepal.Length") :=
  (c2_text_event_semantics
      { mark := [("mark", Val.str "mark_point")],
        encodings := [[("encoding", Val.str "x"), ("column", Val.str "W")]] }
      0 [("encoding", Val.str "x"), ("column", Val.str "W")]
      { row := 0, title := "text", value := Val.str "Sepal.Length",
        new := Val.str "Sepal.Length", old := Val.null }
      rfl rfl rfl).2 "Sepal.Length" rfl (by decide)

/-- C3: the claim says a removal event whose key is absent is a silent
no-op.  The generic removal branch (line 135) pops with no default, so
the code raises KeyError instead: here an aggregate-reset event hits an
entry that has no aggregate key. -/
theorem c3_generic_removal_raises_on_absent_key :
    update { mark := [("mark", Val.str "mark_point")],
             encodings := [[("encoding", Val.str "x")]] }
        { row := 0, title := "aggregate", value := Val.null,
          new := Val.null, old := Val.str "mean" }
      = Except.error "KeyError" := by
  rfl

/-- C4: the claim says no reachable settings value is None.  One update
event on the initial settings refutes it: the mark rows advanced color
dropdown offers None, and the mark branch (line 124) stores the new
value unconditionally, so settings.mark acquires a null-valued key. -/
theorem c4_mark_event_stores_null :
    update (initSettings 3)
        { row := -1, title := "color", value := Val.null,
          new := Val.null, old := Val.str "blue" }
      = Except.ok { mark := [("mark", Val.str "mark_point"), ("color", Val.null)],
                    encodings := (initSettings 3).encodings } ∧
    PyDict.lookup [("mark", Val.str "mark_point"), ("color", Val.null)] "color"
      = some Val.null := by
  constructor <;> rfl

/-- _get_columns: the DataFrame columns plus the wildcard. -/
def _get_columns (dfCols : List String) : List String :=
  dfCols ++ ["*"]

/-- _get_types: the explicit (non auto-detect) field types. -/
def _get_types : List String :=
  ["quantitative", "ordinal", "nominal", "temporal"]

/-- _get_functions: the aggregate catalog. -/
def _get_functions : List String :=
  ["mean", "min", "max", "median", "average", "sum", "count", "distinct",
   "variance", "stdev", "q1", "q3", "argmin", "argmax"]

/-- _get_marks: the mark catalog, in order; the first entry is the
default mark. -/
def _get_marks : List String :=
  ["point", "circle", "line", "bar", "tick", "text", "square", "rule", "area"].map
    (fun f => "mark_" ++ f)

/-- _get_mark_params: the advanced options of every mark. -/
def _get_mark_params : List String :=
  ["color", "applyColorToBackground", "shortTimeLabels"]

/-- _get_advanced_settings: the closed advanced-option catalog, keyed by
encoding name or mark name; none is the KeyError on an unknown key. -/
def _get_advanced_settings (e : String) : Option (List String) :=
  if e = "x" ∨ e = "y" then some ["type", "bin", "aggregate", "zero", "scale"]
  else if e = "text" then some ["type", "bin", "aggregate", "text"]
  else if e ∈ _get_encodings then some ["type", "bin", "aggregate"]
  else if e ∈ _get_marks then some _get_mark_params
  else none

/-- The state of one controller row, restricted to what the claims
touch: the primary selector (children[disable], that is the encoding
dropdown of a shelf or the mark dropdown of the mark row) with its
value and disabled flag, the advanced panel with its visibility and
populated controls, and the column dropdown of a shelf.  Purely visual
attributes (widths, labels, event wiring) are not modelled. -/
structure RowState where
  isMark : Bool
  colsOptions : List (Option String)
  colsValue : Option String
  primaryValue : String
  primaryDisabled : Bool
  advVisible : Bool
  advChildren : List String
deriving DecidableEq, Repr

/-- Interact._show_advanced on one row: look up the advanced catalog for
the current primary value (KeyError, hence none, on an unknown value),
read the old panel visibility, disable the primary selector exactly when
the panel becomes visible, flip the visibility, and repopulate the
panel. -/
def _show_advanced (r : RowState) : Option RowState :=
  match _get_advanced_settings r.primaryValue with
  | none => none
  | some adv =>
      some { r with primaryDisabled := !r.advVisible,
                    advVisible := !r.advVisible,
                    advChildren := adv }

/-- Interact._create_shelf: builds encoding row i.  The encoding
dropdown is pre-selected with encodings[i], which raises IndexError
(none) when i is out of range of the nine encodings. -/
def _create_shelf (columns : List (Option String)) (i : Nat) : Option RowState :=
  match _get_encodings.get? i with
  | none => none
  | some enc =>
      some { isMark := false, colsOptions := columns,
             colsValue := columns.headI, primaryValue := enc,
             primaryDisabled := false, advVisible := false, advChildren := [] }

/-- The mark row of _generate_controller: a dropdown over _get_marks
with its first option selected, plus a hidden, empty advanced panel. -/
def markRow : RowState :=
  { isMark := true, colsOptions := [], colsValue := none,
    primaryValue := _get_marks.headI, primaryDisabled := false,
    advVisible := false, advChildren := [] }

/-- The list comprehension of _generate_controller building the ndims
shelves in order; the first failing shelf aborts construction. -/
def buildShelves (columns : List (Option String)) : Nat → Option (List RowState)
  | 0 => some []
  | n + 1 =>
      match buildShelves columns n, _create_shelf columns n with
      | some l, some sh => some (l ++ [sh])
      | _, _ => none

/-- Interact._generate_controller: the shelves followed by the mark
row. -/
def _generate_controller (columns : List (Option String)) (ndims : Nat) :
    Option (List RowState) :=
  match buildShelves columns ndims with
  | none => none
  | some dims => some (dims ++ [markRow])

/-- Interact.__init__ without the display side effects: column options
are None, the DataFrame columns and the wildcard; the initial settings
and the controller tree are built as in the source. -/
def interactInit (dfCols : List String) (ndims : Nat) :
    Option (Settings × List RowState) :=
  match _generate_controller (none :: (_get_columns dfCols).map some) ndims with
  | none => none
  | some ctrl => some (initSettings ndims, ctrl)

/-- Shelf construction succeeds below the encoding-catalog length and
yields one non-mark row per dimension. -/
theorem buildShelves_ok (cols : List (Option String)) :
    ∀ n, n ≤ 9 → ∃ l, buildShelves cols n = some l ∧ l.length = n ∧
      ∀ r ∈ l, r.isMark = false := by
  intro n
  induction n with
  | zero => exact fun _ => ⟨[], rfl, rfl, by simp⟩
  | succ n ih =>
      intro h
      obtain ⟨l, hl, hlen, hmark⟩ := ih (by omega)
      have hlt : n < _get_encodings.length := by
        have h9 : _get_encodings.length = 9 := rfl
        omega
      have he : _get_encodings[n]? = some (_get_encodings.get ⟨n, hlt⟩) := by
        rw [← List.get?_eq_getElem?]
        exact List.get?_eq_get hlt
      refine ⟨l ++ [{ isMark := false, colsOptions := cols,
                      colsValue := cols.headI,
                      primaryValue := _get_encodings.get ⟨n, hlt⟩,
                      primaryDisabled := false, advVisible := false,
                      advChildren := [] }], ?_, ?_, ?_⟩
      · simp [buildShelves, hl, _create_shelf, he]
      · simp [hlen]
      · intro r hr
        rcases List.mem_append.mp hr with h1 | h1
        · exact hmark r h1
        · simp only [List.mem_singleton] at h1
          rw [h1]

/-- C5 counterexample: the claim says construction succeeds for every
dimension count.  With ndims = 10 the tenth shelf reads encodings[9]
past the nine-element catalog and construction raises IndexError. -/
theorem c5_ndims_ten_raises : interactInit ["a"] 10 = none := by
  rfl

/-- C5 amended: for every dimension count up to the nine available
encodings, construction succeeds, the controller tree has exactly n
encoding rows plus one mark row, and the initial settings list the
first n encodings in the fixed priority order; for larger counts
construction raises IndexError. -/
theorem c5_controller_shape (dfCols : List String) (n : Nat) (h : n ≤ 9) :
    ∃ ctrl, interactInit dfCols n = some (initSettings n, ctrl) ∧
      ctrl.length = n + 1 ∧
      (ctrl.filter fun r => !r.isMark).length = n ∧
      (ctrl.filter fun r => r.isMark).length = 1 ∧
      (initSettings n).encodings
        = (_get_encodings.take n).map (fun e => [("encoding", Val.str e)]) := by
  obtain ⟨l, hl, hlen, hmark⟩ :=
    buildShelves_ok (none :: (_get_columns dfCols).map some) n h
  have hfilter1 : (l.filter fun r => !r.isMark) = l :=
    List.filter_eq_self.mpr (fun r hr => by simp [hmark r hr])
  have hfilter2 : (l.filter fun r => r.isMark) = [] :=
    List.filter_eq_nil_iff.mpr (fun r hr => by simp [hmark r hr])
  refine ⟨l ++ [markRow], ?_, ?_, ?_, ?_, rfl⟩
  · simp [interactInit, _generate_controller, hl]
  · simp [hlen]
  · rw [List.filter_append, hfilter1]
    simp [markRow, hlen]
  · rw [List.filter_append, hfilter2]
    simp [markRow]

/-- C5 amended, witness: three dimensions give three encoding rows plus
the mark row. -/
theorem c5_controller_shape_witness :
    ∃ ctrl, interactInit ["petalWidth"] 3 = some (initSettings 3, ctrl) ∧
      ctrl.length = 3 + 1 ∧
      (ctrl.filter fun r => !r.isMark).length = 3 ∧
      (ctrl.filter fun r => r.isMark).length = 1 ∧
      (initSettings 3).encodings
        = (_get_encodings.take 3).map (fun e => [("encoding", Val.str e)]) :=
  c5_controller_shape ["petalWidth"] 3 (by decide)

/-- C7: on any row whose primary-selector disabled flag agrees with its
advanced-panel visibility (true of every row the builder creates, and
preserved by the toggle itself, which sets both from one value), two
invocations of _show_advanced restore both flags to their original
values. -/
theorem c7_toggle_twice_restores (r r1 r2 : RowState)
    (hinv : r.primaryDisabled = r.advVisible)
    (h1 : _show_advanced r = some r1) (h2 : _show_advanced r1 = some r2) :
    r2.primaryDisabled = r.primaryDisabled ∧ r2.advVisible = r.advVisible := by
  cases hadv : _get_advanced_settings r.primaryValue with
  | none =>
      rw [_show_advanced, hadv] at h1
      cases h1
  | some adv =>
      rw [_show_advanced, hadv] at h1
      injection h1 with h1
      subst h1
      rw [_show_advanced] at h2
      simp only at h2
      rw [hadv] at h2
      injection h2 with h2
      subst h2
      refine ⟨?_, ?_⟩ <;> simp [Bool.not_not, hinv]

/-- C7 witness: a freshly built x-encoding shelf, toggled twice. -/
theorem c7_toggle_twice_restores_witness :
    (RowState.mk false [] none "x" false false
        ["type", "bin", "aggregate", "zero", "scale"]).primaryDisabled
      = (RowState.mk false [] none "x" false false []).primaryDisabled ∧
    (RowState.mk false [] none "x" false false
        ["type", "bin", "aggregate", "zero", "scale"]).advVisible
      = (RowState.mk false [] none "x" false false []).advVisible :=
  c7_toggle_twice_restores
    (RowState.mk false [] none "x" false false [])
    (RowState.mk false [] none "x" true true ["type", "bin", "aggregate", "zero", "scale"])
    (RowState.mk false [] none "x" false false ["type", "bin", "aggregate", "zero", "scale"])
    rfl rfl rfl

/-- Python str.capitalize: first character upper-cased, the rest
lower-cased. -/
def pyCapitalize (s : String) : String :=
  match s.data with
  | [] => ""
  | c :: cs => String.mk (c.toUpper :: cs.map Char.toLower)

/-- The altair.Scale object _get_plot_command builds: its type and zero
arguments, either of which may be the Python None. -/
structure ScaleObj where
  type : Val
  zero : Val
deriving DecidableEq, Repr

/-- The per-encoding field descriptor _get_plot_command returns: the
constructor name (the capitalized encoding), the positional column
argument, the bundled scale object when one was built (in the source it
sits in the keyword dict under the key scale; Scale objects are not
plain values so the embedding keeps it in its own component), and the
remaining keyword options. -/
structure PlotCmd where
  ctor : String
  field : Val
  scale : Option ScaleObj
  opts : PyDict Val
deriving DecidableEq, Repr

/-- _get_plot_command: return nothing (ok none) when the entry has no
column key; otherwise pop encoding and column from a copy of the entry,
bundle scale and zero into a Scale object when either key is present,
and hand the column plus the remaining options to the
capitalized-encoding constructor.  A missing encoding key is the
KeyError of its no-default pop; a non-string one fails at capitalize. -/
def _get_plot_command (e : PyDict Val) : Except String (Option PlotCmd) :=
  match PyDict.lookup e "column" with
  | none => Except.ok none
  | some colVal =>
    match PyDict.lookup e "encoding" with
    | none => Except.error "KeyError"
    | some (Val.str enc) =>
        let d := PyDict.popD (PyDict.popD e "encoding") "column"
        if (PyDict.lookup d "scale").isSome || (PyDict.lookup d "zero").isSome then
          Except.ok (some
            { ctor := pyCapitalize enc, field := colVal,
              scale := some { type := (PyDict.lookup d "scale").getD Val.null,
                              zero := (PyDict.lookup d "zero").getD Val.null },
              opts := PyDict.popD (PyDict.popD d "scale") "zero" })
        else
          Except.ok (some { ctor := pyCapitalize enc, field := colVal,
                            scale := none, opts := d })
    | some _ => Except.error "AttributeError"

/-- The chart object Interact.plot builds: the underlying data (the
DataFrame stands in as its column list), the mark method invoked on it,
the mark options, and the keyword arguments handed to encode in one
call.  A keyword argument is none exactly when _get_plot_command
skipped a column-less encoding entry. -/
structure Chart where
  data : List String
  markMethod : String
  markOpts : PyDict Val
  encodeKwargs : PyDict (Option PlotCmd)
deriving DecidableEq, Repr

/-- The dict comprehension of Interact.plot building the encode keyword
arguments, left to right; a later entry with the same encoding name
overwrites the value of an earlier one in place.  A missing encoding
key raises KeyError, and keyword names must be strings. -/
def buildKwargs (entries : List (PyDict Val)) (acc : PyDict (Option PlotCmd)) :
    Except String (PyDict (Option PlotCmd)) :=
  match entries with
  | [] => Except.ok acc
  | e :: rest =>
    match PyDict.lookup e "encoding" with
    | none => Except.error "KeyError"
    | some (Val.str enc) =>
        match _get_plot_command e with
        | Except.error err => Except.error err
        | Except.ok cmd => buildKwargs rest (PyDict.set acc enc cmd)
    | some _ => Except.error "TypeError"

/-- Interact.plot without the display side effect: compile the settings
into a chart.  mark_opts is the comprehension copy of settings.mark;
popping mark from it raises KeyError when absent, and a non-string mark
fails at getattr. -/
def plot (df : List String) (settings : Settings) : Except String Chart :=
  match buildKwargs settings.encodings [] with
  | Except.error err => Except.error err
  | Except.ok kwargs =>
    match PyDict.lookup settings.mark "mark" with
    | none => Except.error "KeyError"
    | some (Val.str mark) =>
        Except.ok { data := df, markMethod := mark,
                    markOpts := PyDict.popD settings.mark "mark",
                    encodeKwargs := kwargs }
    | some _ => Except.error "AttributeError"

/-- The fields the compiled chart actually encodes: a None-valued
keyword argument carries no field descriptor, so a skipped dimension
contributes nothing. -/
def Chart.fields (c : Chart) : PyDict PlotCmd :=
  c.encodeKwargs.filterMap (fun p => p.2.map (fun cmd => (p.1, cmd)))

/-- A value of the dictionary form produced by to_dict on the chart
field objects: strings, booleans and nested objects. -/
inductive DVal where
  | vstr (s : String) : DVal
  | vbool (b : Bool) : DVal
  | vobj (entries : List (String × DVal)) : DVal

/-- The dictionary form of one trait value; None-valued traits are
omitted.  Modelled from the doctest of _get_plot_command, which pins
to_dict of X(petalWidth, scale=Scale(type=log, zero=None)) down to
the dict with only field and scale.type set. -/
def Val.toDVal : Val → Option DVal
  | Val.null => none
  | Val.str s => some (DVal.vstr s)
  | Val.bool b => some (DVal.vbool b)

/-- Dictionary form of a Scale object, None traits omitted. -/
def ScaleObj.toDict (sc : ScaleObj) : List (String × DVal) :=
  (match Val.toDVal sc.type with
   | some v => [("type", v)]
   | none => []) ++
  (match Val.toDVal sc.zero with
   | some v => [("zero", v)]
   | none => [])

/-- Dictionary form of a field descriptor, None traits omitted. -/
def PlotCmd.toDict (cmd : PlotCmd) : List (String × DVal) :=
  (match Val.toDVal cmd.field with
   | some v => [("field", v)]
   | none => []) ++
  (match cmd.scale with
   | some sc => [("scale", DVal.vobj (ScaleObj.toDict sc))]
   | none => []) ++
  cmd.opts.filterMap (fun p => (Val.toDVal p.2).map (fun v => (p.1, v)))

/-- C6: an encoding entry with no column key makes _get_plot_command
return nothing without an error, and a chart compiled from settings
holding such an entry encodes no field from it: with that entry as the
only one, the compiled chart has no encoded fields at all. -/
theorem c6_no_column_entry_skipped (e : PyDict Val)
    (h : PyDict.lookup e "column" = none) :
    _get_plot_command e = Except.ok none ∧
    ∀ (df : List String) (s : Settings) (c : Chart),
      s.encodings = [e] → plot df s = Except.ok c → Chart.fields c = [] := by
  have hcmd : _get_plot_command e = Except.ok none := by
    simp only [_get_plot_command, h]
  refine ⟨hcmd, ?_⟩
  intro df s c hs hp
  simp only [plot, hs] at hp
  cases henc : PyDict.lookup e "encoding" with
  | none => simp [buildKwargs, henc] at hp
  | some v =>
      cases v with
      | null => simp [buildKwargs, henc] at hp
      | bool b => simp [buildKwargs, henc] at hp
      | str enc =>
          have hb : buildKwargs [e] [] = Except.ok [(enc, (none : Option PlotCmd))] := by
            simp [buildKwargs, henc, hcmd, PyDict.set]
          rw [hb] at hp
          cases hm : PyDict.lookup s.mark "mark" with
          | none => simp [hm] at hp
          | some mv =>
              cases mv with
              | null => simp [hm] at hp
              | bool b => simp [hm] at hp
              | str m =>
                  simp only [hm] at hp
                  injection hp with hp
                  rw [← hp]
                  rfl

/-- C6 witness: a lone x entry with no column compiles to a chart with
no encoded fields. -/
theorem c6_no_column_entry_skipped_witness :
    _get_plot_command [("encoding", Val.str "x")] = Except.ok none ∧
    Chart.fields
        { data := ["w"], markMethod := "mark_point", markOpts := [],
          encodeKwargs := [("x", none)] }
      = [] :=
  ⟨(c6_no_column_entry_skipped [("encoding", Val.str "x")] rfl).1,
   (c6_no_column_entry_skipped [("encoding", Val.str "x")] rfl).2 ["w"]
      { mark := [("mark", Val.str "mark_point")],
        encodings := [[("encoding", Val.str "x")]] }
      { data := ["w"], markMethod := "mark_point", markOpts := [],
        encodeKwargs := [("x", none)] }
      rfl rfl⟩

/-- C8: whenever scale or zero is present in a compiled entry, they are
bundled into the nested scale descriptor and do not remain among the
top-level keyword options; in particular the entry with encoding x,
column W and scale log compiles to the X descriptor whose dictionary
form is exactly field = W with scale = (type = log). -/
theorem c8_scale_options_bundled (e : PyDict Val) (cmd : PlotCmd)
    (hok : _get_plot_command e = Except.ok (some cmd))
    (hsz : (PyDict.lookup e "scale").isSome = true ∨
           (PyDict.lookup e "zero").isSome = true) :
    cmd.scale = some { type := (PyDict.lookup e "scale").getD Val.null,
                       zero := (PyDict.lookup e "zero").getD Val.null } ∧
    PyDict.lookup cmd.opts "scale" = none ∧
    PyDict.lookup cmd.opts "zero" = none ∧
    _get_plot_command
        [("encoding", Val.str "x"), ("column", Val.str "W"), ("scale", Val.str "log")]
      = Except.ok (some { ctor := "X", field := Val.str "W",
                          scale := some { type := Val.str "log", zero := Val.null },
                          opts := [] }) ∧
    PlotCmd.toDict { ctor := "X", field := Val.str "W",
                     scale := some { type := Val.str "log", zero := Val.null },
                     opts := [] }
      = [("field", DVal.vstr "W"), ("scale", DVal.vobj [("type", DVal.vstr "log")])] := by
  have hsc : PyDict.lookup (PyDict.popD (PyDict.popD e "encoding") "column") "scale"
      = PyDict.lookup e "scale" := by
    rw [PyDict.lookup_popD_ne _ _ _ (by decide), PyDict.lookup_popD_ne _ _ _ (by decide)]
  have hze : PyDict.lookup (PyDict.popD (PyDict.popD e "encoding") "column") "zero"
      = PyDict.lookup e "zero" := by
    rw [PyDict.lookup_popD_ne _ _ _ (by decide), PyDict.lookup_popD_ne _ _ _ (by decide)]
  have hcond : ((PyDict.lookup (PyDict.popD (PyDict.popD e "encoding") "column") "scale").isSome ||
      (PyDict.lookup (PyDict.popD (PyDict.popD e "encoding") "column") "zero").isSome) = true := by
    rw [hsc, hze, Bool.or_eq_true]
    exact hsz
  cases hcol : PyDict.lookup e "column" with
  | none =>
      rw [_get_plot_command.eq_def, hcol] at hok
      cases hok
  | some colVal =>
      cases henc : PyDict.lookup e "encoding" with
      | none =>
          rw [_get_plot_command.eq_def, hcol, henc] at hok
          cases hok
      | some v =>
          cases v with
          | null =>
              rw [_get_plot_command.eq_def, hcol, henc] at hok
              cases hok
          | bool b =>
              rw [_get_plot_command.eq_def, hcol, henc] at hok
              cases hok
          | str enc =>
              rw [_get_plot_command.eq_def, hcol, henc] at hok
              simp only [hcond, if_true] at hok
              injection hok with hok
              injection hok with hok
              rw [← hok]
              refine ⟨by rw [hsc, hze], ?_, ?_, rfl, rfl⟩
              · rw [PyDict.lookup_popD_ne _ _ _ (by decide)]
                exact PyDict.lookup_popD_self _ "scale"
              · exact PyDict.lookup_popD_self _ "zero"

/-- C8 witness: the doctest entry itself. -/
theorem c8_scale_options_bundled_witness :
    (some { type := Val.str "log", zero := Val.null } : Option ScaleObj)
      = some { type := (PyDict.lookup [("encoding", Val.str "x"), ("column", Val.str "W"),
                          ("scale", Val.str "log")] "scale").getD Val.null,
               zero := (PyDict.lookup [("encoding", Val.str "x"), ("column", Val.str "W"),
                          ("scale", Val.str "log")] "zero").getD Val.null } ∧
    PyDict.lookup ([] : PyDict Val) "scale" = none ∧
    PyDict.lookup ([] : PyDict Val) "zero" = none ∧
    _get_plot_command
        [("encoding", Val.str "x"), ("column", Val.str "W"), ("scale", Val.str "log")]
      = Except.ok (some { ctor := "X", field := Val.str "W",
                          scale := some { type := Val.str "log", zero := Val.null },
                          opts := [] }) ∧
    PlotCmd.toDict { ctor := "X", field := Val.str "W",
                     scale := some { type := Val.str "log", zero := Val.null },
                     opts := [] }
      = [("field", DVal.vstr "W"), ("scale", DVal.vobj [("type", DVal.vstr "log")])] :=
  c8_scale_options_bundled
    [("encoding", Val.str "x"), ("column", Val.str "W"), ("scale", Val.str "log")]
    { ctor := "X", field := Val.str "W",
      scale := some { type := Val.str "log", zero := Val.null }, opts := [] }
    rfl (Or.inl (by decide))

/-- Interact.plot with the settings state threaded through explicitly:
the pair holds the compiled chart and the settings as they stand after
the call.  Every dict the source mutates while compiling is a
comprehension copy (d in _get_plot_command, mark_opts in plot), and no
statement assigns into self.settings, so the returned settings are the
input ones. -/
def plotTracked (df : List String) (settings : Settings) :
    Except String Chart × Settings :=
  (plot df settings, settings)

/-- C9: compiling is pure with respect to the settings: after plot runs,
settings.mark and the encodings list are unchanged, and the chart is the
one the pure compiler denotes. -/
theorem c9_plot_leaves_settings_unchanged (df : List String) (s : Settings) :
    (plotTracked df s).2.mark = s.mark ∧
    (plotTracked df s).2.encodings = s.encodings ∧
    (plotTracked df s).2 = s ∧
    (plotTracked df s).1 = plot df s :=
  ⟨rfl, rfl, rfl, rfl⟩

/-- Interact.plot as the method is declared: it receives a settings
argument and a show flag, but its body reads only self.settings (and
self.df); the show flag gates the display side effect, not the chart
construction. -/
def plotMethod (selfDf : List String) (selfSettings : Settings)
    (settingsArg : Settings) (showArg : Bool) : Except String Chart :=
  plot selfDf selfSettings

/-- C10: the settings parameter of Interact.plot is dead: two calls on
the same instance with different settings arguments build the same
chart. -/
theorem c10_plot_ignores_settings_argument (df : List String)
    (selfS s1 s2 : Settings) (sh : Bool) :
    plotMethod df selfS s1 sh = plotMethod df selfS s2 sh :=
  rfl

end AltairWidgets
